import Mathlib

/-!
Verification of the analytics core of the django-BloodBank repository.

The development shallowly embeds the analytics aggregation and reporting
subsystem (`analytics/services.py`, `analytics/models.py`,
`donations/models.py`) into Lean: Django querysets become Lean lists,
JSONField values become explicit sum types distinguishing native mappings
from string-encoded ones, pandas float semantics are modelled with an
explicit non-finite marker, and the report cache / generation lock become
a small state machine.  Machine reals produced by numpy are modelled as
exact rationals.
-/

set_option autoImplicit false

namespace BloodBank

/-! ### Trend classification (`ReportService._generate_*_trends`)

`np.polyfit(x, y, 1)` with `x = np.arange(len(y))` computes the ordinary
least-squares slope `(n·Σxy − Σx·Σy) / (n·Σx² − (Σx)²)`.  The source then
classifies the slope against the fixed `±0.1` threshold, e.g. line 291 of
`analytics/services.py`:
`'increasing' if total_slope > 0.1 else 'decreasing' if total_slope < -0.1 else 'stable'`.
-/

/-- Ordinary least-squares slope of `ys` against indices `0, 1, …, n−1`,
as computed by `np.polyfit(np.arange(len(ys)), ys, 1)[0]`.  For a series
of length `< 2` the normal-equation denominator vanishes (numpy emits a
rank warning there); we return `0` in that degenerate case. -/
def olsSlope (ys : List ℚ) : ℚ :=
  let n : ℚ := ys.length
  let xs : List ℚ := (List.range ys.length).map (fun i => (i : ℚ))
  let sx := xs.sum
  let sy := ys.sum
  let sxy := ((xs.zip ys).map (fun p => p.1 * p.2)).sum
  let sxx := (xs.map (fun x => x * x)).sum
  let den := n * sxx - sx * sx
  if den = 0 then 0 else (n * sxy - sx * sy) / den

/-- The slope classifier shared by all four trend computations: strictly
above `0.1` gives the "up" label, strictly below `-0.1` the "down" label,
otherwise `"stable"`. -/
def classifySlope (slope : ℚ) (up down : String) : String :=
  if slope > 1/10 then up else if slope < -1/10 then down else "stable"

/-- `request_trend` (and `total_trend` for donations): classification of the
raw-count series, labels `"increasing"` / `"decreasing"`. -/
def countTrend (ys : List ℚ) : String :=
  classifySlope (olsSlope ys) "increasing" "decreasing"

/-- `fulfillment_trend` / `success_rate_trend`: classification of the derived
rate series, labels `"improving"` / `"declining"`. -/
def rateTrend (ys : List ℚ) : String :=
  classifySlope (olsSlope ys) "improving" "declining"

/-! ### Rate computations

Two forms occur in the source.  The guarded form, e.g.
`analytics/services.py:714`:
`fulfillment_rate = float(fulfilled_requests / total_requests * 100) if total_requests > 0 else 0.0`,
and the pandas form, e.g. line 284:
`df['fulfillment_rate'] = (df['fulfilled_requests'] / df['total_requests'] * 100).fillna(0)`.
Pandas division follows IEEE semantics: `0/0` is NaN (replaced by
`fillna(0)`), `n/0` with `n ≠ 0` is a signed infinity (NOT replaced by
`fillna`).  We model a pandas float as either a finite rational or one of
the non-finite markers. -/

/-- A pandas/IEEE float value: finite, infinite, or NaN. -/
inductive PFloat where
  | val (q : ℚ)
  | posInf
  | negInf
  | nan
deriving DecidableEq, Repr

/-- IEEE division as performed by pandas on a numeric column. -/
def pandasDiv (n d : ℚ) : PFloat :=
  if d = 0 then
    if n = 0 then PFloat.nan
    else if n > 0 then PFloat.posInf
    else PFloat.negInf
  else PFloat.val (n / d)

/-- Scalar multiplication on a pandas float (`* 100` in the source). -/
def pfloatMul (x : PFloat) (c : ℚ) : PFloat :=
  match x with
  | PFloat.val q => PFloat.val (q * c)
  | PFloat.posInf => PFloat.posInf
  | PFloat.negInf => PFloat.negInf
  | PFloat.nan => PFloat.nan

/-- `Series.fillna(0)`: replaces NaN by `0`, leaves infinities alone. -/
def fillna0 (x : PFloat) : PFloat :=
  match x with
  | PFloat.nan => PFloat.val 0
  | y => y

/-- The pandas rate column `(num / den * 100).fillna(0)` at one row. -/
def pandasRate (n d : ℚ) : PFloat :=
  fillna0 (pfloatMul (pandasDiv n d) 100)

/-- The guarded rate `num / den * 100 if den > 0 else 0` used by the summary
generators and per-blood-type/urgency rate computations. -/
def guardedRate (n d : ℚ) : ℚ :=
  if d > 0 then n / d * 100 else 0

/-! ### Transactional source records (`donations/models.py`, `accounts/models.py`)

Calendar dates are day indices (`Nat`).  Status fields are the strings the
Django models store; their admissible values are the model's
`STATUS_CHOICES` enumerations. -/

/-- The eight ABO/Rh blood groups of `BLOOD_GROUP_CHOICES`. -/
def bloodGroups : List String :=
  ["A+", "A-", "B+", "B-", "AB+", "AB-", "O+", "O-"]

/-- A `Donation` row; `STATUS_CHOICES` is pending/approved/rejected. -/
structure DonationRec where
  blood_group : String
  status : String
  request_date : Nat
deriving DecidableEq, Repr

/-- A `BloodRequest` row; `STATUS_CHOICES` is pending/fulfilled/denied. -/
structure BloodRequestRec where
  blood_group : String
  urgency : Bool
  status : String
  request_date : Nat
deriving DecidableEq, Repr

/-- An `Inventory` row; `blood_group` is unique across rows. -/
structure InventoryRec where
  blood_group : String
  quantity : Nat
  is_low : Bool
deriving DecidableEq, Repr

/-- An `InventoryTransaction` row.  The FK `inventory` is identified by
`blood_group`, which is unique on `Inventory`; `timestampDate` is
`timestamp.date()`. -/
structure TransactionRec where
  blood_group : String
  quantity : Int
  timestampDate : Nat
deriving DecidableEq, Repr

/-- The transactional database the aggregator reads (never mutates). -/
structure World where
  donations : List DonationRec
  requests : List BloodRequestRec
  inventory : List InventoryRec
  transactions : List TransactionRec
deriving DecidableEq, Repr

/-! ### Daily summary rows (`analytics/models.py`)

A Django `JSONField` is observed by consumer code either as a native
structure or as a string; `json.loads` on a string is abstracted by its
outcome (`some parsed` or `none` for a `JSONDecodeError`). -/

/-- A JSONField value as seen by Python consumers. -/
inductive JField (α : Type) where
  | native (v : α)
  | text (parsed : Option α)
deriving DecidableEq, Repr

/-- The value a consumer obtains after the `isinstance(x, str)` +
`json.loads` dance; `none` means the `except JSONDecodeError: continue`
branch is taken. -/
def JField.get? {α : Type} : JField α → Option α
  | JField.native v => some v
  | JField.text p => p

/-- Whether the stored field is a native mapping (the form
`update_or_create` with a dict produces). -/
def JField.isNative {α : Type} : JField α → Bool
  | JField.native _ => true
  | JField.text _ => false

/-- Per-blood-type donation counts inside `blood_type_breakdown`. -/
structure DonBVals where
  total : Nat
  successful : Nat
  rejected : Nat
deriving DecidableEq, Repr

/-- Per-blood-type request counts inside `blood_type_breakdown`. -/
structure ReqBVals where
  total : Nat
  fulfilled : Nat
  pending : Nat
  cancelled : Nat
deriving DecidableEq, Repr

/-- The `urgency_breakdown` mapping. -/
structure UrgVals where
  urgent : Nat
  normal : Nat
deriving DecidableEq, Repr

/-- A `DailyDonationStats` row (`date` carries a unique constraint). -/
structure DailyDonationStatsRow where
  date : Nat
  total_donations : Nat
  successful_donations : Nat
  rejected_donations : Nat
  blood_type_breakdown : JField (List (String × DonBVals))
deriving DecidableEq, Repr

/-- A `DailyRequestStats` row (`date` carries a unique constraint). -/
structure DailyRequestStatsRow where
  date : Nat
  total_requests : Nat
  fulfilled_requests : Nat
  pending_requests : Nat
  cancelled_requests : Nat
  blood_type_breakdown : JField (List (String × ReqBVals))
  urgency_breakdown : JField UrgVals
deriving DecidableEq, Repr

/-- A `DailyInventorySnapshot` row (`date` carries a unique constraint). -/
structure DailyInventorySnapshotRow where
  date : Nat
  inventory_levels : JField (List (String × Nat))
  expiring_soon : JField (List (String × Nat))
  expired_today : JField (List (String × Nat))
deriving DecidableEq, Repr

/-! ### Stats Aggregator (`AnalyticsService`) -/

/-- `AnalyticsService._generate_donation_stats(date)`: counts donations with
`request_date__date = date`, overall and per blood group, and builds the
row persisted by `update_or_create`.  The stored breakdown is a native
dict. -/
def generateDonationStats (w : World) (date : Nat) : DailyDonationStatsRow :=
  let donations := w.donations.filter (fun d => d.request_date == date)
  { date := date
    total_donations := donations.length
    successful_donations := (donations.filter (fun d => d.status == "approved")).length
    rejected_donations := (donations.filter (fun d => d.status == "rejected")).length
    blood_type_breakdown := JField.native (bloodGroups.map (fun bg =>
      let g := donations.filter (fun d => d.blood_group == bg)
      (bg, { total := g.length
             successful := (g.filter (fun d => d.status == "approved")).length
             rejected := (g.filter (fun d => d.status == "rejected")).length }))) }

/-- `AnalyticsService._generate_request_stats(date)`: counts requests with
`request_date__date = date` by status — including a count of status
`'cancelled'`, a value absent from `BloodRequest.STATUS_CHOICES` — plus
per-blood-group and urgency breakdowns. -/
def generateRequestStats (w : World) (date : Nat) : DailyRequestStatsRow :=
  let requests := w.requests.filter (fun r => r.request_date == date)
  { date := date
    total_requests := requests.length
    fulfilled_requests := (requests.filter (fun r => r.status == "fulfilled")).length
    pending_requests := (requests.filter (fun r => r.status == "pending")).length
    cancelled_requests := (requests.filter (fun r => r.status == "cancelled")).length
    blood_type_breakdown := JField.native (bloodGroups.map (fun bg =>
      let g := requests.filter (fun r => r.blood_group == bg)
      (bg, { total := g.length
             fulfilled := (g.filter (fun r => r.status == "fulfilled")).length
             pending := (g.filter (fun r => r.status == "pending")).length
             cancelled := (g.filter (fun r => r.status == "cancelled")).length })))
    urgency_breakdown := JField.native
      { urgent := (requests.filter (fun r => r.urgency)).length
        normal := (requests.filter (fun r => !r.urgency)).length } }

/-- `AnalyticsService._generate_inventory_snapshot(date)`.  Note the source
computes `today = timezone.now().date()` and filters the transactions by
`timestamp__date = today` — the wall-clock date at run time — not by the
`date` parameter the snapshot row is keyed by; `today` is therefore an
explicit argument here. -/
def generateInventorySnapshot (w : World) (today date : Nat) :
    DailyInventorySnapshotRow :=
  { date := date
    inventory_levels := JField.native
      (w.inventory.map (fun inv => (inv.blood_group, inv.quantity)))
    expiring_soon := JField.native
      ((w.inventory.filter (fun inv => inv.is_low)).map
        (fun inv => (inv.blood_group, inv.quantity)))
    expired_today := JField.native
      (w.inventory.filterMap (fun inv =>
        let recent : Int := ((w.transactions.filter (fun t =>
          t.blood_group == inv.blood_group && t.timestampDate == today)).map
            (fun t => t.quantity)).sum
        if recent < 0 then some (inv.blood_group, recent.natAbs) else none)) }

/-- The persisted daily-summary store (the three analytics tables). -/
structure AnalyticsStore where
  donationStats : List DailyDonationStatsRow
  requestStats : List DailyRequestStatsRow
  snapshots : List DailyInventorySnapshotRow
deriving DecidableEq, Repr

/-- Django `update_or_create(date=d, defaults=…)` under the unique
constraint on `date`: the row for that date (at most one exists) is
replaced by the recomputed row, otherwise the row is inserted. -/
def upsertByDate {α : Type} (dateOf : α → Nat) (row : α) (s : List α) :
    List α :=
  s.filter (fun r => dateOf r != dateOf row) ++ [row]

/-- `AnalyticsService.generate_daily_stats(date)`: upserts the three daily
summary rows for `date`.  `today` is the wall-clock date observed inside
`_generate_inventory_snapshot`. -/
def generateDailyStats (w : World) (today date : Nat) (s : AnalyticsStore) :
    AnalyticsStore :=
  { donationStats :=
      upsertByDate (fun r => r.date) (generateDonationStats w date) s.donationStats
    requestStats :=
      upsertByDate (fun r => r.date) (generateRequestStats w date) s.requestStats
    snapshots :=
      upsertByDate (fun r => r.date) (generateInventorySnapshot w today date) s.snapshots }

/-- The "expired today" mapping as the specification words it: for each
blood type, the absolute value of the sum of the quantities of all
inventory transactions for that blood type recorded on `date` (the
snapshot's own date), included only when that sum is negative.  Modelled
from the spec for comparison with `generateInventorySnapshot`, whose
transaction filter uses the wall-clock date instead. -/
def specExpiredToday (w : World) (date : Nat) : List (String × Nat) :=
  w.inventory.filterMap (fun inv =>
    let s : Int := ((w.transactions.filter (fun t =>
      t.blood_group == inv.blood_group && t.timestampDate == date)).map
        (fun t => t.quantity)).sum
    if s < 0 then some (inv.blood_group, s.natAbs) else none)

/-! ### Report generators (`ReportService`)

The embedding covers the default daily grouping (`group_by = 'day'`, the
path the claims exercise); the week/month resampling branch is not
modelled.  Summary rows arrive in ascending date order
(`order_by('date')`), one row per date (unique constraint). -/

/-- Python's `round(x, 2)`: round-half-to-even at two decimal places,
idealized over exact rationals. -/
def roundHalfEven (q : ℚ) : ℤ :=
  let f := q - ⌊q⌋
  if f < 1/2 then ⌊q⌋
  else if 1/2 < f then ⌊q⌋ + 1
  else if ⌊q⌋ % 2 = 0 then ⌊q⌋ else ⌊q⌋ + 1

/-- `round(float(x), 2)` as it appears on every reported rate. -/
def pyRound2 (q : ℚ) : ℚ :=
  (roundHalfEven (q * 100) : ℚ) / 100

/-- `if blood_types and blood_type not in blood_types: continue` — the
filter only bites when the parameter is present and non-empty. -/
def excludedByFilter (bts : Option (List String)) (bt : String) : Bool :=
  match bts with
  | none => false
  | some l => !l.isEmpty && !(l.contains bt)

/-- Python assoc-map update preserving dict insertion order: update the
entry for `k` if present, else append `(k, f d0)`. -/
def updateAssoc {β : Type} (l : List (String × β)) (k : String) (d0 : β)
    (f : β → β) : List (String × β) :=
  match l with
  | [] => [(k, f d0)]
  | (k₁, v) :: t =>
    if k₁ == k then (k₁, f v) :: t else (k₁, v) :: updateAssoc t k d0 f

/-- One blood type's contribution to the `blood_type_insights`
accumulator (`services.py:314-328`). -/
def addInsight (ins : List (String × ReqBVals)) (bt : String) (d : ReqBVals) :
    List (String × ReqBVals) :=
  updateAssoc ins bt { total := 0, fulfilled := 0, pending := 0, cancelled := 0 }
    (fun v => { total := v.total + d.total, fulfilled := v.fulfilled + d.fulfilled,
                pending := v.pending + d.pending, cancelled := v.cancelled + d.cancelled })

/-- The `urgent_fulfilled` contribution of one row (`services.py:341-348`):
only a *string-encoded* `blood_type_breakdown` contributes, and its
contribution is the sum of the `'fulfilled'` counts of all blood types in
the parsed mapping; a native dict contributes nothing, and a parse failure
hits `continue`. -/
def urgentFulfilledContribution
    (b : JField (List (String × ReqBVals))) : Nat :=
  match b with
  | JField.native _ => 0
  | JField.text none => 0
  | JField.text (some m) => (m.map (fun p => p.2.fulfilled)).sum

/-- The accumulator threaded through the `for request in requests` loop of
`_generate_request_trends` (`services.py:300-348`). -/
structure TrendsAcc where
  insights : List (String × ReqBVals)
  urgent : Nat
  normal : Nat
  urgentFulfilled : Nat
deriving DecidableEq, Repr

/-- One iteration of that loop.  A `JSONDecodeError` on the breakdown
skips the whole rest of the body (`continue` at line 312); one on the
urgency skips the urgency totals *and* the urgent-fulfilled block
(`continue` at line 336). -/
def processTrendsRow (bts : Option (List String)) (acc : TrendsAcc)
    (row : DailyRequestStatsRow) : TrendsAcc :=
  match row.blood_type_breakdown.get? with
  | none => acc
  | some bd =>
    let ins := bd.foldl (fun ins p =>
      if excludedByFilter bts p.1 then ins else addInsight ins p.1 p.2) acc.insights
    match row.urgency_breakdown.get? with
    | none => { acc with insights := ins }
    | some urg =>
      { insights := ins
        urgent := acc.urgent + urg.urgent
        normal := acc.normal + urg.normal
        urgentFulfilled :=
          acc.urgentFulfilled + urgentFulfilledContribution row.blood_type_breakdown }

/-- The whole loop, folded over the date-ordered rows. -/
def trendsAccOf (bts : Option (List String))
    (rows : List DailyRequestStatsRow) : TrendsAcc :=
  rows.foldl (processTrendsRow bts)
    { insights := [], urgent := 0, normal := 0, urgentFulfilled := 0 }

/-- A `blood_type_insights` entry after the rate pass (`services.py:350-355`). -/
structure InsightVals where
  total : Nat
  fulfilled : Nat
  pending : Nat
  cancelled : Nat
  fulfillment_rate : ℚ
deriving DecidableEq, Repr

/-- The post-loop rate pass over the insights. -/
def finishInsights (ins : List (String × ReqBVals)) :
    List (String × InsightVals) :=
  ins.map (fun p =>
    (p.1, { total := p.2.total, fulfilled := p.2.fulfilled, pending := p.2.pending,
            cancelled := p.2.cancelled,
            fulfillment_rate :=
              if p.2.total > 0
              then pyRound2 ((p.2.fulfilled : ℚ) / (p.2.total : ℚ) * 100)
              else 0 }))

/-- `max(urgent_by_day.items(), key=…)` / `Series.idxmax`: the first
element attaining the maximum of `f`. -/
def firstMaxBy {α : Type} (l : List α) (f : α → Nat) : Option α :=
  l.foldl (fun best x =>
    match best with
    | none => some x
    | some b => if f x > f b then some x else best) none

/-- A column of finite rationals, if the pandas column holds no
infinity/NaN. -/
def pfloatColumnToQ (col : List PFloat) : Option (List ℚ) :=
  col.mapM (fun x =>
    match x with
    | PFloat.val q => some q
    | _ => none)

/-- `np.polyfit` slope classification over a pandas float column: a
non-finite entry makes the fitted slope NaN, both threshold comparisons
are then False and the `else` branch yields `"stable"`. -/
def pfloatTrend (col : List PFloat) (up down : String) : String :=
  match pfloatColumnToQ col with
  | some qs => classifySlope (olsSlope qs) up down
  | none => "stable"

/-- The analysis values `_generate_request_trends` computes at
`services.py:283-373`, *before* the `trends_data` labels expression at
line 377: the two slope classifications, the peak and most-urgent days,
the loop accumulator with its per-type rate pass (lines 350-355), and
the line-359 `urgent_fulfillment_rate` value.  On the modelled daily
path these values are computed and then lost to the line-377
`AttributeError`; only on a resampled path can they flow into a
returned payload. -/
structure TrendsAnalysisValues where
  request_trend : String
  fulfillment_trend : String
  peak_day : Option Nat
  most_urgent_day : Option Nat
  blood_type_insights : List (String × InsightVals)
  urgency_urgent : Nat
  urgency_normal : Nat
  urgent_fulfillment_rate : ℚ
deriving DecidableEq, Repr

/-- The pre-crash analysis computation of `_generate_request_trends`
(`services.py:283-373`) over the date-ordered rows. -/
def requestTrendsAnalysisValues (bts : Option (List String))
    (rows : List DailyRequestStatsRow) : TrendsAnalysisValues :=
  let acc := trendsAccOf bts rows
  let rateCol := rows.map (fun r =>
    pandasRate (r.fulfilled_requests : ℚ) (r.total_requests : ℚ))
  let urgentByDay := rows.filterMap (fun r =>
    (r.urgency_breakdown.get?).map (fun u => (r.date, u.urgent)))
  { request_trend :=
      classifySlope (olsSlope (rows.map (fun r => (r.total_requests : ℚ))))
        "increasing" "decreasing"
    fulfillment_trend := pfloatTrend rateCol "improving" "declining"
    peak_day := (firstMaxBy rows (fun r => r.total_requests)).map (fun r => r.date)
    most_urgent_day := (firstMaxBy urgentByDay (fun p => p.2)).map (fun p => p.1)
    blood_type_insights := finishInsights acc.insights
    urgency_urgent := acc.urgent
    urgency_normal := acc.normal
    urgent_fulfillment_rate :=
      if acc.urgent > 0
      then (acc.urgentFulfilled : ℚ) / (acc.urgent : ℚ) * 100
      else 0 }

/-- The `_generate_request_trends` payload (the fields of `trends` and
`analysis` the embedding models; labels are the row dates). -/
structure RequestTrendsReport where
  labels : List Nat
  total_requests_series : List Nat
  fulfilled_requests_series : List Nat
  pending_requests_series : List Nat
  cancelled_requests_series : List Nat
  fulfillment_rate_series : List PFloat
  request_trend : String
  fulfillment_trend : String
  peak_day : Option Nat
  most_urgent_day : Option Nat
  blood_type_insights : List (String × InsightVals)
  urgency_urgent : Nat
  urgency_normal : Nat
  urgent_fulfillment_rate : ℚ
deriving DecidableEq, Repr

/-- The `if df.empty` payload of `_generate_request_trends`
(`services.py:255-273`). -/
def emptyRequestTrendsReport : RequestTrendsReport :=
  { labels := []
    total_requests_series := []
    fulfilled_requests_series := []
    pending_requests_series := []
    cancelled_requests_series := []
    fulfillment_rate_series := []
    request_trend := "insufficient_data"
    fulfillment_trend := "insufficient_data"
    peak_day := none
    most_urgent_day := none
    blood_type_insights := []
    urgency_urgent := 0
    urgency_normal := 0
    urgent_fulfillment_rate := 0 }

/-- `ReportService._generate_request_trends` over the date-ordered summary
rows in `[start_date, end_date]`, default daily grouping.  An empty range
hits the `df.empty` guard and returns the documented empty payload.  For
non-empty rows the analysis of `services.py:283-373` is computed (see
`requestTrendsAnalysisValues`), but on the daily path `df` keeps its
integer `RangeIndex`: `hasattr(df.index, 'strftime')` is False at line
377 and the fallback comprehension calls `strftime` on an int, raising
`AttributeError` before the `return` at line 402 — so no payload is ever
produced on this path. -/
def generateRequestTrends (_bts : Option (List String))
    (rows : List DailyRequestStatsRow) : Except String RequestTrendsReport :=
  if rows.isEmpty then Except.ok emptyRequestTrendsReport
  else
    Except.error "AttributeError: 'int' object has no attribute 'strftime'"

/-- Selecting a column of a DataFrame built from `list(qs.values())`: a
frame built from an empty list has **no columns**, so `df[name]` raises
`KeyError(name)` (`_generate_request_summary` has no `df.empty` guard). -/
def dfColumn {α : Type} (rows : List DailyRequestStatsRow) (name : String)
    (f : DailyRequestStatsRow → α) : Except String (List α) :=
  if rows.isEmpty then Except.error ("KeyError: " ++ name)
  else Except.ok (rows.map f)

/-- The `_generate_request_summary` payload shape of the `return` at
`services.py:764-775` (summary scalars and the two aggregated
breakdowns).  On the modelled daily path that return is never reached:
see `generateRequestSummary`. -/
structure RequestSummaryReport where
  total_requests : Nat
  fulfilled_requests : Nat
  pending_requests : Nat
  cancelled_requests : Nat
  fulfillment_rate : ℚ
  blood_type_breakdown : List (String × ReqBVals)
  urgency_breakdown : UrgVals
deriving DecidableEq, Repr

/-- `ReportService._generate_request_summary` over the summary rows in
range, default daily grouping.  Unlike `_generate_donation_summary` and
the two trends generators there is no `df.empty` early return: on an
empty range the first column access (`df['total_requests']`, line 710)
raises `KeyError` on the column-less frame.  On non-empty rows the sums
and rate of lines 710-714 are computed, but the `trends_data` labels
expression at line 718 then calls `strftime` on the daily path's integer
`RangeIndex` and raises `AttributeError` before the aggregation loop and
the `return` — so this generator never returns on the daily path. -/
def generateRequestSummary (_bts : Option (List String))
    (rows : List DailyRequestStatsRow) : Except String RequestSummaryReport := do
  let _totals ← dfColumn rows "total_requests" (fun r => r.total_requests)
  let _fulfilled ← dfColumn rows "fulfilled_requests" (fun r => r.fulfilled_requests)
  let _pending ← dfColumn rows "pending_requests" (fun r => r.pending_requests)
  let _cancelled ← dfColumn rows "cancelled_requests" (fun r => r.cancelled_requests)
  Except.error "AttributeError: 'int' object has no attribute 'strftime'"

/-! ### Report Cache (`ReportService.get_or_generate_report`)

The Django key-value cache (`django.core.cache.cache`) is the set of
present keys; `cache.add` is add-if-absent, `cache.delete` removes the
key.  `ReportCache` rows are listed newest-first (the model's default
`ordering = ['-created_at']`, which the lookup query inherits), so
`.first()` is the head of the matching sublist.  Report payloads are
opaque strings.  The generator body and `_cache_report` may raise; their
outcomes are oracle parameters, and `genCount` counts generator
invocations (the spec's side-effect counter). -/

/-- Raw report parameters; `start_date`/`end_date` are `datetime.date`
values (day indices). -/
structure ReportParams where
  start_date : Nat
  end_date : Nat
  group_by : String
  blood_types : Option (List String)
deriving DecidableEq, Repr

/-- Parameters after `get_or_generate_report` / `_cache_report` replace
the two dates by `date.isoformat()` strings. -/
structure NormParams where
  start_date : String
  end_date : String
  group_by : String
  blood_types : Option (List String)
deriving DecidableEq, Repr

/-- `date.isoformat()` — an injective rendering of the day index. -/
def isoformat (d : Nat) : String :=
  toString d

/-- The `processed_params` computed at the top of
`get_or_generate_report` (and again inside `_cache_report`). -/
def normalizeParams (p : ReportParams) : NormParams :=
  { start_date := isoformat p.start_date
    end_date := isoformat p.end_date
    group_by := p.group_by
    blood_types := p.blood_types }

/-- `str(v)` for the optional blood-types list. -/
def bloodTypesStr (bts : Option (List String)) : String :=
  match bts with
  | none => "None"
  | some l => toString l

/-- `ReportService._get_cache_key`: prefix + report type + the
`'_'`-joined `k:v` pairs in sorted key order (blood_types, end_date,
group_by, start_date). -/
def cacheKey (rt : String) (p : NormParams) : String :=
  "report_cache_" ++ rt ++ "_" ++
    "blood_types:" ++ bloodTypesStr p.blood_types ++
    "_end_date:" ++ p.end_date ++
    "_group_by:" ++ p.group_by ++
    "_start_date:" ++ p.start_date

/-- A persisted `ReportCache` row. -/
structure CacheEntry where
  report_type : String
  parameters : NormParams
  data : String
  expires_at : Nat
  is_generating : Bool
deriving DecidableEq, Repr

/-- The mutable state `get_or_generate_report` touches: the `ReportCache`
table (newest first), the key-value cache's key set, and the generator
invocation counter. -/
structure CacheState where
  rows : List CacheEntry
  locks : List String
  genCount : Nat
deriving DecidableEq, Repr

/-- The cache lookup
`ReportCache.objects.filter(report_type=…, parameters=…, expires_at__gt=now, is_generating=False).first()`. -/
def findCached (now : Nat) (rt : String) (np : NormParams)
    (rows : List CacheEntry) : Option CacheEntry :=
  rows.find? (fun e =>
    decide (e.report_type = rt ∧ e.parameters = np ∧ now < e.expires_at ∧
      e.is_generating = false))

/-- `ReportService._cache_report`: persists a fresh row (normalized
parameters, `expires_at = now + CACHE_DURATION`, `is_generating` left at
its default `False`), newest first. -/
def cacheReport (now : Nat) (rt : String) (np : NormParams) (data : String)
    (rows : List CacheEntry) : List CacheEntry :=
  { report_type := rt, parameters := np, data := data,
    expires_at := now + 24, is_generating := false } :: rows

/-- `ReportService.get_or_generate_report(report_type, parameters,
force_refresh)`.  `genResult` is the outcome of
`_generate_report` (the dispatched generator), `cacheResult` the outcome
of `_cache_report`; the `try/finally` deletes the lock key on every exit
from the locked region. -/
def getOrGenerateReport (now : Nat) (genResult : Except String String)
    (cacheResult : Except String Unit) (rt : String) (p : ReportParams)
    (forceRefresh : Bool) (st : CacheState) :
    Except String String × CacheState :=
  let np := normalizeParams p
  let key := cacheKey rt np
  let hit := if forceRefresh then none else findCached now rt np st.rows
  match hit with
  | some e => (Except.ok e.data, st)
  | none =>
    let lockKey := key ++ "_lock"
    if lockKey ∈ st.locks then
      (Except.error "Report generation already in progress", st)
    else
      let st₁ : CacheState :=
        { st with locks := lockKey :: st.locks, genCount := st.genCount + 1 }
      let release : CacheState → CacheState := fun s =>
        { s with locks := s.locks.filter (fun k => decide (k ≠ lockKey)) }
      match genResult with
      | Except.error msg => (Except.error msg, release st₁)
      | Except.ok data =>
        match cacheResult with
        | Except.error msg => (Except.error msg, release st₁)
        | Except.ok _ =>
          (Except.ok data,
            release { st₁ with rows := cacheReport now rt np data st₁.rows })

/-! ### Concrete instances used to evaluate the model -/

/-- A representative parameter map: one week, daily grouping, no filter. -/
def sampleParams : ReportParams :=
  { start_date := 0, end_date := 7, group_by := "day", blood_types := none }

/-- An unexpired, not-generating cache entry for
`("request_trends", sampleParams)`. -/
def sampleEntry : CacheEntry :=
  { report_type := "request_trends"
    parameters := normalizeParams sampleParams
    data := "cached-payload"
    expires_at := 10
    is_generating := false }

/-- A state holding `sampleEntry` and no locks. -/
def sampleHitState : CacheState :=
  { rows := [sampleEntry], locks := [], genCount := 3 }

/-- A state with no cache rows where the generation lock for
`("request_trends", sampleParams)` is already held. -/
def sampleLockState : CacheState :=
  { rows := []
    locks := [cacheKey "request_trends" (normalizeParams sampleParams) ++ "_lock"]
    genCount := 0 }

/-- The pristine state: no rows, no locks. -/
def sampleFreeState : CacheState :=
  { rows := [], locks := [], genCount := 0 }

/-- A world with one A+ inventory row and a single depleting transaction
recorded on day 0; running the snapshot on day 1 for date 0 exhibits the
wall-clock filter. -/
def wallClockWorld : World :=
  { donations := []
    requests := []
    inventory := [{ blood_group := "A+", quantity := 10, is_low := false }]
    transactions := [{ blood_group := "A+", quantity := -3, timestampDate := 0 }] }

/-- A world whose requests all carry statuses from
`BloodRequest.STATUS_CHOICES`. -/
def statusWorld : World :=
  { donations := []
    requests :=
      [{ blood_group := "A+", urgency := true, status := "pending", request_date := 0 },
       { blood_group := "O-", urgency := false, status := "fulfilled", request_date := 0 },
       { blood_group := "A+", urgency := false, status := "denied", request_date := 0 }]
    inventory := []
    transactions := [] }

/-- One summary row whose JSON fields are native mappings (the form the
aggregator stores), with urgent requests present and fulfilled ones too. -/
def nativeTrendRows : List DailyRequestStatsRow :=
  [{ date := 0
     total_requests := 4
     fulfilled_requests := 3
     pending_requests := 1
     cancelled_requests := 0
     blood_type_breakdown := JField.native
       [("A+", { total := 4, fulfilled := 3, pending := 1, cancelled := 0 })]
     urgency_breakdown := JField.native { urgent := 2, normal := 2 } }]

end BloodBank

namespace BloodBank

/-! ### Helper lemmas -/

/-- OLS slope of the strictly increasing test series. -/
theorem olsSlope_one_to_five : olsSlope [1, 2, 3, 4, 5] = 1 := by
  norm_num [olsSlope, List.range_succ]

/-- OLS slope of the flat test series. -/
theorem olsSlope_const_three : olsSlope [3, 3, 3, 3] = 0 := by
  norm_num [olsSlope, List.range_succ]

/-- OLS slope of the strictly decreasing test series. -/
theorem olsSlope_five_to_one : olsSlope [5, 4, 3, 2, 1] = -1 := by
  norm_num [olsSlope, List.range_succ]

/-- The classifier picks the "up" label above the threshold. -/
theorem classifySlope_up (s : ℚ) (hs : s > 1/10) (u d : String) :
    classifySlope s u d = u := by
  unfold classifySlope
  rw [if_pos hs]

/-- The classifier picks the "down" label below the negative threshold. -/
theorem classifySlope_down (s : ℚ) (hs : s < -1/10) (u d : String) :
    classifySlope s u d = d := by
  have h1 : ¬ s > 1/10 := by linarith
  unfold classifySlope
  rw [if_neg h1, if_pos hs]

/-- The classifier yields `"stable"` inside the band. -/
theorem classifySlope_stable (s : ℚ) (h1 : -1/10 ≤ s) (h2 : s ≤ 1/10)
    (u d : String) : classifySlope s u d = "stable" := by
  have h3 : ¬ s > 1/10 := by linarith
  have h4 : ¬ s < -1/10 := by linarith
  unfold classifySlope
  rw [if_neg h3, if_neg h4]

/-! ### C4 — trend classification -/

/-- C4: trend classification applies the fixed `±0.1` threshold to the OLS
slope of the series — strictly above `0.1` classifies as
increasing/improving, strictly below `-0.1` as decreasing/declining,
otherwise stable — and on the concrete series `[1,2,3,4,5]`, `[3,3,3,3]`,
`[5,4,3,2,1]` yields `"increasing"`, `"stable"`, `"decreasing"`. -/
theorem trend_threshold_classification :
    (∀ ys : List ℚ, olsSlope ys > 1/10 → countTrend ys = "increasing")
    ∧ (∀ ys : List ℚ, olsSlope ys < -1/10 → countTrend ys = "decreasing")
    ∧ (∀ ys : List ℚ, -1/10 ≤ olsSlope ys → olsSlope ys ≤ 1/10 →
        countTrend ys = "stable")
    ∧ (∀ ys : List ℚ, olsSlope ys > 1/10 → rateTrend ys = "improving")
    ∧ (∀ ys : List ℚ, olsSlope ys < -1/10 → rateTrend ys = "declining")
    ∧ countTrend [1, 2, 3, 4, 5] = "increasing"
    ∧ countTrend [3, 3, 3, 3] = "stable"
    ∧ countTrend [5, 4, 3, 2, 1] = "decreasing" := by
  refine ⟨fun ys h => classifySlope_up _ h _ _,
    fun ys h => classifySlope_down _ h _ _,
    fun ys h1 h2 => classifySlope_stable _ h1 h2 _ _,
    fun ys h => classifySlope_up _ h _ _,
    fun ys h => classifySlope_down _ h _ _, ?_, ?_, ?_⟩
  · rw [countTrend, olsSlope_one_to_five]
    exact classifySlope_up 1 (by norm_num) _ _
  · rw [countTrend, olsSlope_const_three]
    exact classifySlope_stable 0 (by norm_num) (by norm_num) _ _
  · rw [countTrend, olsSlope_five_to_one]
    exact classifySlope_down (-1) (by norm_num) _ _

/-- Witness for C4: the general threshold clause applied to the concrete
increasing series, whose slope is `1 > 0.1`. -/
theorem trend_threshold_classification_witness :
    countTrend [1, 2, 3, 4, 5] = "increasing" :=
  trend_threshold_classification.1 [1, 2, 3, 4, 5]
    (by rw [olsSlope_one_to_five]; norm_num)

/-! ### C5 — division-safe rate computation -/

/-- C5: for numerators and denominators arising in the rate computations
(the denominator is a count, `0 ≤ d`, and the numerator is a sub-count of
it, so `d = 0 → n = 0`), both the guarded rate and the pandas
`(n / d * 100).fillna(0)` rate equal `n / d * 100` when `d > 0` and `0`
when `d = 0`; the pandas form yields a finite value (no infinity, no NaN,
no exception), and `computeRate(0, 0) = 0`, `computeRate(5, 10) = 50`. -/
theorem rate_division_safety (n d : ℚ) (hd : 0 ≤ d) (h0 : d = 0 → n = 0) :
    guardedRate n d = (if 0 < d then n / d * 100 else 0)
    ∧ pandasRate n d = PFloat.val (if 0 < d then n / d * 100 else 0)
    ∧ guardedRate 0 0 = 0
    ∧ guardedRate 5 10 = 50 := by
  refine ⟨rfl, ?_, by norm_num [guardedRate], by norm_num [guardedRate]⟩
  rcases eq_or_lt_of_le hd with h | h
  · rw [← h]
    rw [h0 h.symm]
    norm_num [pandasRate, pandasDiv, pfloatMul, fillna0]
  · simp [pandasRate, pandasDiv, h.ne', pfloatMul, fillna0, if_pos h]

/-- Witness for C5 at `n = 5`, `d = 10`: the pandas rate is the finite
value `50`. -/
theorem rate_division_safety_witness : pandasRate 5 10 = PFloat.val 50 := by
  have h := (rate_division_safety 5 10 (by norm_num) (by norm_num)).2.1
  rw [h, if_pos (by norm_num : (0:ℚ) < 10)]
  norm_num

/-! ### C1 — cache hit returns the stored payload without regeneration -/

/-- C1: if the lookup finds an unexpired, not-generating cache entry for
`(report_type, normalized parameters)` and `force_refresh` is off, the
call returns that entry's stored data, leaves the state untouched, and
does not invoke the report generator (the invocation counter is
unchanged). -/
theorem cache_hit_returns_stored_payload (now : Nat)
    (g : Except String String) (c : Except String Unit) (rt : String)
    (p : ReportParams) (st : CacheState) (e : CacheEntry)
    (h : findCached now rt (normalizeParams p) st.rows = some e) :
    getOrGenerateReport now g c rt p false st = (Except.ok e.data, st)
    ∧ (getOrGenerateReport now g c rt p false st).2.genCount = st.genCount := by
  refine ⟨?_, ?_⟩ <;> simp [getOrGenerateReport, h]

/-- Witness for C1: a state holding one unexpired entry; the call returns
its payload and the generator counter stays at 3. -/
theorem cache_hit_returns_stored_payload_witness :
    getOrGenerateReport 5 (Except.ok "fresh") (Except.ok ()) "request_trends"
        sampleParams false sampleHitState
      = (Except.ok sampleEntry.data, sampleHitState)
    ∧ (getOrGenerateReport 5 (Except.ok "fresh") (Except.ok ())
        "request_trends" sampleParams false sampleHitState).2.genCount
      = sampleHitState.genCount :=
  cache_hit_returns_stored_payload 5 (Except.ok "fresh") (Except.ok ())
    "request_trends" sampleParams sampleHitState sampleEntry (by rfl)

/-! ### C2 — held lock plus cache miss raises a conflict error -/

/-- C2: if the generation lock key is already present in the key-value
store and the lookup yields no usable entry (or is skipped by
`force_refresh`), the call returns the "Report generation already in
progress" error and changes nothing: no blocking, no retry, no generator
invocation, no new cache row. -/
theorem lock_conflict_raises (now : Nat) (g : Except String String)
    (c : Except String Unit) (rt : String) (p : ReportParams) (fr : Bool)
    (st : CacheState)
    (hlock : cacheKey rt (normalizeParams p) ++ "_lock" ∈ st.locks)
    (hmiss : fr = true ∨ findCached now rt (normalizeParams p) st.rows = none) :
    getOrGenerateReport now g c rt p fr st
      = (Except.error "Report generation already in progress", st) := by
  rcases hmiss with h | h
  · subst h
    simp [getOrGenerateReport, hlock]
  · cases fr <;> simp [getOrGenerateReport, h, hlock]

/-- Witness for C2: empty cache, lock held — the call fails with the
conflict message and the state is unchanged. -/
theorem lock_conflict_raises_witness :
    getOrGenerateReport 5 (Except.ok "fresh") (Except.ok ()) "request_trends"
        sampleParams false sampleLockState
      = (Except.error "Report generation already in progress",
         sampleLockState) :=
  lock_conflict_raises 5 (Except.ok "fresh") (Except.ok ()) "request_trends"
    sampleParams false sampleLockState (by simp [sampleLockState])
    (Or.inr rfl)

/-! ### C3 — the lock is released on every exit path -/

/-- C3: whenever the call reaches the locked region (no usable cache
entry, lock key not yet present, so the add-if-absent acquisition
succeeds), the lock key is absent from the key-value store when the call
exits — for every outcome of the generator and of `_cache_report`,
normal or raising. -/
theorem lock_released_on_every_exit (now : Nat) (g : Except String String)
    (c : Except String Unit) (rt : String) (p : ReportParams) (fr : Bool)
    (st : CacheState)
    (hfree : cacheKey rt (normalizeParams p) ++ "_lock" ∉ st.locks)
    (hmiss : fr = true ∨ findCached now rt (normalizeParams p) st.rows = none) :
    cacheKey rt (normalizeParams p) ++ "_lock"
      ∉ (getOrGenerateReport now g c rt p fr st).2.locks := by
  rcases hmiss with h | h
  · subst h
    cases g <;> cases c <;>
      simp [getOrGenerateReport, hfree, cacheReport, List.mem_filter]
  · cases fr <;> cases g <;> cases c <;>
      simp [getOrGenerateReport, h, hfree, cacheReport, List.mem_filter]

/-- Witness for C3: starting from the pristine state (with a generator
that succeeds), the lock key is not present after the call returns. -/
theorem lock_released_on_every_exit_witness :
    cacheKey "request_trends" (normalizeParams sampleParams) ++ "_lock"
      ∉ (getOrGenerateReport 5 (Except.ok "fresh") (Except.ok ())
          "request_trends" sampleParams false sampleFreeState).2.locks :=
  lock_released_on_every_exit 5 (Except.ok "fresh") (Except.ok ())
    "request_trends" sampleParams false sampleFreeState
    (by simp [sampleFreeState]) (Or.inr rfl)

/-! ### C6 — behaviour on an empty date range

`_generate_request_trends` guards `df.empty` and returns the documented
empty payload, but `_generate_request_summary` has no such guard: its
first column access on the column-less empty DataFrame raises `KeyError`,
so the claim fails for the `request_summary` report type. -/

/-- C6 (evaluation at the failing input): on a range containing no
summaries, the request-trends generator returns the well-defined empty
payload with the `insufficient_data` sentinel, but the request-summary
generator raises a `KeyError` instead of returning its empty payload. -/
theorem empty_range_request_summary_raises :
    generateRequestTrends none [] = Except.ok emptyRequestTrendsReport
    ∧ generateRequestSummary none [] = Except.error "KeyError: total_requests" := by
  exact ⟨rfl, rfl⟩

/-! ### C7 — idempotent daily aggregation -/

/-- Re-upserting the identical row is a no-op. -/
theorem upsertByDate_idem {α : Type} (dateOf : α → Nat) (row : α)
    (s : List α) :
    upsertByDate dateOf row (upsertByDate dateOf row s)
      = upsertByDate dateOf row s := by
  unfold upsertByDate
  rw [List.filter_append]
  simp

/-- After an upsert there is exactly one row carrying the upserted date. -/
theorem upsertByDate_unique {α : Type} (dateOf : α → Nat) (row : α)
    (s : List α) :
    ((upsertByDate dateOf row s).filter
      (fun r => dateOf r == dateOf row)).length = 1 := by
  unfold upsertByDate
  rw [List.filter_append]
  simp

/-- The donation-stats row is keyed by the requested date. -/
theorem generateDonationStats_date (w : World) (d : Nat) :
    (generateDonationStats w d).date = d := rfl

/-- The request-stats row is keyed by the requested date. -/
theorem generateRequestStats_date (w : World) (d : Nat) :
    (generateRequestStats w d).date = d := rfl

/-- The snapshot row is keyed by the requested date. -/
theorem generateInventorySnapshot_date (w : World) (today d : Nat) :
    (generateInventorySnapshot w today d).date = d := rfl

/-- C7: `generate_daily_stats` is idempotent — over unchanged source data
a second run for the same date leaves the three stores exactly as the
first run did, and each store holds exactly one row for that date (the
unique date constraint is the upsert key, so re-running overwrites and
never duplicates). -/
theorem generate_daily_stats_idempotent (w : World) (today d : Nat)
    (s : AnalyticsStore) :
    generateDailyStats w today d (generateDailyStats w today d s)
      = generateDailyStats w today d s
    ∧ ((generateDailyStats w today d s).donationStats.filter
        (fun r => r.date == d)).length = 1
    ∧ ((generateDailyStats w today d s).requestStats.filter
        (fun r => r.date == d)).length = 1
    ∧ ((generateDailyStats w today d s).snapshots.filter
        (fun r => r.date == d)).length = 1 := by
  refine ⟨?_, ?_, ?_, ?_⟩
  · simp [generateDailyStats, upsertByDate_idem]
  · simpa [generateDailyStats, generateDonationStats_date] using
      upsertByDate_unique (fun r : DailyDonationStatsRow => r.date)
        (generateDonationStats w d) s.donationStats
  · simpa [generateDailyStats, generateRequestStats_date] using
      upsertByDate_unique (fun r : DailyRequestStatsRow => r.date)
        (generateRequestStats w d) s.requestStats
  · simpa [generateDailyStats, generateInventorySnapshot_date] using
      upsertByDate_unique (fun r : DailyInventorySnapshotRow => r.date)
        (generateInventorySnapshot w today d) s.snapshots

/-! ### C8 — "expired today" is filtered by the wall-clock date -/

/-- C8 (evaluation at the failing input): the snapshot's transaction
filter agrees with the specification only when the requested date *is*
the wall-clock date; for `wallClockWorld`, whose single depleting A+
transaction is recorded on day 0, running the aggregation on day 1 for
date 0 stores an empty `expired_today`, while the specification's value
for date 0 is `A+ ↦ 3`. -/
theorem expired_today_uses_wall_clock_date :
    (∀ w : World, ∀ d : Nat,
      (generateInventorySnapshot w d d).expired_today
        = JField.native (specExpiredToday w d))
    ∧ (generateInventorySnapshot wallClockWorld 1 0).expired_today
        = JField.native []
    ∧ specExpiredToday wallClockWorld 0 = [("A+", 3)] := by
  refine ⟨fun w d => rfl, by decide, by decide⟩

/-! ### C9 — the 'cancelled' counters can never be hit -/

/-- No request whose status comes from `BloodRequest.STATUS_CHOICES`
matches the aggregator's `status='cancelled'` filter. -/
theorem no_cancelled_of_valid (l : List BloodRequestRec)
    (h : ∀ r ∈ l,
      r.status = "pending" ∨ r.status = "fulfilled" ∨ r.status = "denied") :
    (l.filter (fun r => r.status == "cancelled")).length = 0 := by
  rw [List.length_eq_zero, List.filter_eq_nil_iff]
  intro a ha
  rcases h a ha with h1 | h1 | h1 <;> rw [h1] <;> decide

/-- Requests with statuses from the enumeration split the total count
into fulfilled, pending, and denied. -/
theorem status_count_partition (l : List BloodRequestRec)
    (h : ∀ r ∈ l,
      r.status = "pending" ∨ r.status = "fulfilled" ∨ r.status = "denied") :
    l.length
      = (l.filter (fun r => r.status == "fulfilled")).length
        + (l.filter (fun r => r.status == "pending")).length
        + (l.filter (fun r => r.status == "denied")).length := by
  induction l with
  | nil => simp
  | cons a t ih =>
    have iht := ih (fun r hr => h r (List.mem_cons_of_mem a hr))
    rcases h a (List.mem_cons_self a t) with h1 | h1 | h1 <;>
      simp [List.filter_cons, h1, iht] <;> omega

/-- The per-date queryset underlying `_generate_request_stats`. -/
def dayRequests (w : World) (d : Nat) : List BloodRequestRec :=
  w.requests.filter (fun r => r.request_date == d)

/-- Projection: `total_requests` counts that day's queryset. -/
theorem generateRequestStats_total (w : World) (d : Nat) :
    (generateRequestStats w d).total_requests = (dayRequests w d).length := rfl

/-- Projection: `fulfilled_requests` counts the fulfilled filter. -/
theorem generateRequestStats_fulfilled (w : World) (d : Nat) :
    (generateRequestStats w d).fulfilled_requests
      = ((dayRequests w d).filter (fun r => r.status == "fulfilled")).length := rfl

/-- Projection: `pending_requests` counts the pending filter. -/
theorem generateRequestStats_pending (w : World) (d : Nat) :
    (generateRequestStats w d).pending_requests
      = ((dayRequests w d).filter (fun r => r.status == "pending")).length := rfl

/-- Projection: `cancelled_requests` counts the cancelled filter. -/
theorem generateRequestStats_cancelled (w : World) (d : Nat) :
    (generateRequestStats w d).cancelled_requests
      = ((dayRequests w d).filter (fun r => r.status == "cancelled")).length := rfl

/-- Projection: the stored breakdown is the native per-group mapping. -/
theorem generateRequestStats_breakdown (w : World) (d : Nat) :
    (generateRequestStats w d).blood_type_breakdown.get?.getD []
      = bloodGroups.map (fun bg =>
          let g := (dayRequests w d).filter (fun r => r.blood_group == bg)
          (bg, { total := g.length
                 fulfilled := (g.filter (fun r => r.status == "fulfilled")).length
                 pending := (g.filter (fun r => r.status == "pending")).length
                 cancelled :=
                   (g.filter (fun r => r.status == "cancelled")).length })) := rfl

/-- C9: because `BloodRequest.STATUS_CHOICES` is pending/fulfilled/denied,
the `status='cancelled'` counts of `_generate_request_stats` are always
zero — overall and in every blood-type breakdown entry — and denied
requests contribute to `total_requests` but to none of the stored
per-status counters. -/
theorem cancelled_counters_always_zero (w : World) (d : Nat)
    (hval : ∀ r ∈ w.requests,
      r.status = "pending" ∨ r.status = "fulfilled" ∨ r.status = "denied") :
    (generateRequestStats w d).cancelled_requests = 0
    ∧ (∀ p ∈ (generateRequestStats w d).blood_type_breakdown.get?.getD [],
        p.2.cancelled = 0)
    ∧ (generateRequestStats w d).total_requests
        = (generateRequestStats w d).fulfilled_requests
          + (generateRequestStats w d).pending_requests
          + ((dayRequests w d).filter (fun r => r.status == "denied")).length := by
  have hday : ∀ r ∈ dayRequests w d,
      r.status = "pending" ∨ r.status = "fulfilled" ∨ r.status = "denied" :=
    fun r hr => hval r (List.mem_of_mem_filter hr)
  refine ⟨?_, ?_, ?_⟩
  · rw [generateRequestStats_cancelled]
    exact no_cancelled_of_valid _ hday
  · intro p hp
    rw [generateRequestStats_breakdown] at hp
    obtain ⟨bg, _, rfl⟩ := List.mem_map.mp hp
    exact no_cancelled_of_valid _
      (fun r hr => hday r (List.mem_of_mem_filter hr))
  · rw [generateRequestStats_total, generateRequestStats_fulfilled,
      generateRequestStats_pending]
    exact status_count_partition _ hday

/-- Witness for C9: a world with one pending, one fulfilled and one
denied request on day 0 — the stored cancelled counter is zero. -/
theorem cancelled_counters_always_zero_witness :
    (generateRequestStats statusWorld 0).cancelled_requests = 0 :=
  (cancelled_counters_always_zero statusWorld 0 (by decide)).1

/-! ### C10 — the urgent-fulfilled counter never fires on native data -/

/-- A native breakdown contributes nothing to `urgent_fulfilled`,
whatever the rest of the row does. -/
theorem processTrendsRow_urgentFulfilled_of_native
    (bts : Option (List String)) (acc : TrendsAcc)
    (row : DailyRequestStatsRow)
    (h : row.blood_type_breakdown.isNative = true) :
    (processTrendsRow bts acc row).urgentFulfilled = acc.urgentFulfilled := by
  cases hb : row.blood_type_breakdown with
  | native v =>
    cases hu : row.urgency_breakdown with
    | native u =>
      simp [processTrendsRow, hb, hu, JField.get?, urgentFulfilledContribution]
    | text q =>
      cases q <;>
        simp [processTrendsRow, hb, hu, JField.get?, urgentFulfilledContribution]
  | text p =>
    rw [hb] at h
    simp [JField.isNative] at h

/-- Folding the trends loop over native-breakdown rows leaves the
`urgent_fulfilled` accumulator untouched. -/
theorem trendsFold_urgentFulfilled_const (bts : Option (List String))
    (rows : List DailyRequestStatsRow) (acc : TrendsAcc)
    (h : ∀ r ∈ rows, r.blood_type_breakdown.isNative = true) :
    (rows.foldl (processTrendsRow bts) acc).urgentFulfilled
      = acc.urgentFulfilled := by
  induction rows generalizing acc with
  | nil => rfl
  | cons a t ih =>
    rw [List.foldl_cons, ih _ (fun r hr => h r (List.mem_cons_of_mem a hr))]
    exact processTrendsRow_urgentFulfilled_of_native bts acc a
      (h a (List.mem_cons_self a t))

/-- C10: when every stored `blood_type_breakdown` in range is a native
mapping (the form the aggregator itself stores), the `urgent_fulfilled`
counter stays 0 through the whole loop, so the
`urgent_fulfillment_rate` value the source computes at line 359 — the
value placed under `urgency_analysis` in any payload the generator
returns — is 0, however many urgent requests were fulfilled; every
payload `_generate_request_trends` actually returns under this
hypothesis carries rate 0 (on the modelled daily path the only returned
payload is the empty one, line 377 raising before the non-empty
return); and when a breakdown *is* string-encoded, its contribution is
the sum of the `'fulfilled'` counts of all blood types, not a count of
urgent requests. -/
theorem urgent_fulfillment_rate_stuck_at_zero (bts : Option (List String))
    (rows : List DailyRequestStatsRow)
    (h : ∀ r ∈ rows, r.blood_type_breakdown.isNative = true) :
    (trendsAccOf bts rows).urgentFulfilled = 0
    ∧ (requestTrendsAnalysisValues bts rows).urgent_fulfillment_rate = 0
    ∧ (∀ rep : RequestTrendsReport,
        generateRequestTrends bts rows = Except.ok rep →
        rep.urgent_fulfillment_rate = 0)
    ∧ (∀ m : List (String × ReqBVals),
        urgentFulfilledContribution (JField.text (some m))
          = (m.map (fun p => p.2.fulfilled)).sum) := by
  have huf : (trendsAccOf bts rows).urgentFulfilled = 0 :=
    trendsFold_urgentFulfilled_const bts rows _ h
  refine ⟨huf, ?_, ?_, fun m => rfl⟩
  · have hval : (requestTrendsAnalysisValues bts rows).urgent_fulfillment_rate
        = if (trendsAccOf bts rows).urgent > 0
          then ((trendsAccOf bts rows).urgentFulfilled : ℚ)
            / ((trendsAccOf bts rows).urgent : ℚ) * 100
          else 0 := rfl
    rw [hval, huf]
    by_cases hu : (trendsAccOf bts rows).urgent > 0
    · rw [if_pos hu]
      simp
    · rw [if_neg hu]
  · intro rep hrep
    cases rows with
    | nil =>
      have he : rep = emptyRequestTrendsReport := by
        simpa [generateRequestTrends] using hrep.symm
      rw [he]
      rfl
    | cons a t => simp [generateRequestTrends] at hrep

/-- Witness for C10: one native-breakdown row with 2 urgent and 3
fulfilled requests still yields an urgent fulfillment rate value of 0. -/
theorem urgent_fulfillment_rate_stuck_at_zero_witness :
    (requestTrendsAnalysisValues none nativeTrendRows).urgent_fulfillment_rate
      = 0 :=
  (urgent_fulfillment_rate_stuck_at_zero none nativeTrendRows (by decide)).2.1

end BloodBank
